import Mathlib

set_option maxRecDepth 8000

/-
Verification development for the gabia-sms client library (gabia_sms/core.py).

The definitions below are a shallow embedding of the module `gabia_sms.core`:
the class `GabiaSMS` with its settings resolution, parameter validation,
MD5-based access-token derivation, request construction (`__get_sms_param`),
the send path (`send` / `__send_sms`) and the result lookup
(`get_send_result`).  External collaborators that core.py imports from
sibling modules (`formats`, `parser.get_result_code`, `utils.get_nonce`,
`utils.escape_xml_string`) are not part of the provided source; they are
modelled from the specification where a concrete model is needed and passed
as explicit parameters where the specification treats them as opaque.
Effectful behaviour (the XML-RPC gateway call, the logging sink, the two
overridable hooks) is made explicit: each operation returns its result
together with the chronological list of observable effects it performed.
-/

deriving instance DecidableEq for Except

namespace GabiaSms

/-! ## Exceptions

Every error core.py raises itself is an instance of the single class
`SMSModuleException` (imported from gabia_sms.exceptions); the only other
exception reachable from the embedded fragment is the `TypeError` produced
by Python's `set()` on a non-iterable argument.  An exception value is its
class together with its message string. -/

/-- Python exception classes observable from the embedded code. -/
inductive ExcClass where
  | SMSModuleException
  | TypeError
deriving DecidableEq

/-- A raised Python exception: its class and its message. -/
structure Exc where
  cls : ExcClass
  msg : String
deriving DecidableEq

/-! ## Python values

The dynamically-typed values that flow through the public API in this
module: strings, integers, `None`, and (for the multi-SMS path) lists and
sets of strings.  Sets are represented by their iteration sequence; Python
leaves set iteration order unspecified, and the embedding fixes it to
first-occurrence order (no claim below depends on the order of a set with
more than one element). -/

inductive PyVal where
  | str (s : String)
  | int (n : ℤ)
  | strList (xs : List String)
  | strSet (xs : List String)
  | pyNone
deriving DecidableEq

/-- Python truthiness for the embedded values. -/
def PyVal.truthy : PyVal → Bool
  | .str s => !s.isEmpty
  | .int n => n != 0
  | .strList xs => !xs.isEmpty
  | .strSet xs => !xs.isEmpty
  | .pyNone => false

/-- `isinstance(v, str)`. -/
def PyVal.isStr : PyVal → Bool
  | .str _ => true
  | _ => false

/-- `isinstance(v, list)`. -/
def PyVal.isList : PyVal → Bool
  | .strList _ => true
  | _ => false

/-- `isinstance(v, set)`. -/
def PyVal.isSet : PyVal → Bool
  | .strSet _ => true
  | _ => false

/-- The underlying string of a `.str` value (only consulted after an
`isinstance(v, str)` check has succeeded). -/
def PyVal.asStr : PyVal → String
  | .str s => s
  | _ => ""

/-- Keep the first occurrence of every element, dropping later duplicates
(the observable content of building a Python `set` from a sequence). -/
def dedupFirst (xs : List String) : List String :=
  xs.foldl (fun acc x => if x ∈ acc then acc else acc ++ [x]) []

/-- Python's `set(v)`: deduplicates a list, leaves a set unchanged, splits a
string into its characters, and raises `TypeError` on a non-iterable. -/
def pySet : PyVal → Except Exc PyVal
  | .strList xs => .ok (.strSet (dedupFirst xs))
  | .strSet xs => .ok (.strSet xs)
  | .str s => .ok (.strSet (dedupFirst (s.toList.map (fun c => String.mk [c]))))
  | .int _ => .error ⟨.TypeError, "argument of type int is not iterable"⟩
  | .pyNone => .error ⟨.TypeError, "argument of type NoneType is not iterable"⟩

/-- Elements of a set value, in iteration order. -/
def PyVal.elems : PyVal → List String
  | .strList xs => xs
  | .strSet xs => xs
  | _ => []

/-! ## The phone-number pattern

core.py line 21: `PHONE_NUMBER_REGEX = '01[0|1|6|7|8|9]{1}[0-9]{7,8}'`,
used with `re.search`, i.e. the pattern may occur anywhere in the string.
Note that inside a character class `|` is a literal character, so the class
matches the seven characters 0 1 6 7 8 9 |.  `re.search` succeeds iff some
position starts `0`, `1`, a class character, and then at least seven ASCII
digits (a greedy eighth digit never affects whether a match exists). -/

/-- Characters of the class `[0|1|6|7|8|9]` (the `|` is literal). -/
def phoneClassChar (c : Char) : Bool :=
  c = '0' || c = '1' || c = '6' || c = '7' || c = '8' || c = '9' || c = '|'

/-- ASCII digit test, matching the class `[0-9]`. -/
def isAsciiDigit (c : Char) : Bool :=
  '0' ≤ c && c ≤ '9'

/-- Does the pattern match starting exactly at the head of the list? -/
def phoneMatchHere : List Char → Bool
  | c0 :: c1 :: c2 :: rest =>
      c0 = '0' && c1 = '1' && phoneClassChar c2 &&
        decide (7 ≤ rest.length) && (rest.take 7).all isAsciiDigit
  | _ => false

/-- `re.search` over the list of characters: a match starting anywhere. -/
def phoneSearchList : List Char → Bool
  | [] => false
  | c :: rest => phoneMatchHere (c :: rest) || phoneSearchList rest

/-- `re.compile(PHONE_NUMBER_REGEX).search(s)` succeeded. -/
def phoneSearch (s : String) : Bool :=
  phoneSearchList s.toList

/-! ## Module constants (core.py lines 23–30) -/

def MISSING_SETTING (setting : String) : String :=
  "GABIA_SMS_SETTINGS " ++ setting ++ " is required"

def REQUIRED_SETTINGS : List String := ["API_ID", "API_KEY", "SENDER"]

def KNOWN_SMS_TYPES : List String := ["sms", "lms", "multi_sms", "multi_lms"]

def SINGLE_SMS_TYPES : List String := ["sms", "lms"]

def MULTI_SMS_TYPES : List String := ["multi_sms", "multi_lms"]

def SUCCESS_CODE : String := "0000"

/-! ## Settings resolution (GabiaSMS.__init__ / __get_module_settings /
__validate_settings, core.py lines 38–53)

The configuration source `settings.GABIA_SMS_SETTINGS` is a Python dict;
it is embedded as an insertion-ordered association list whose values are
`Option String` (`none` models Python `None`, the default installed by
`setdefault` for an absent required key). -/

/-- A configuration mapping: insertion-ordered keys with string-or-None
values, as a Python dict of settings. -/
abbrev Config := List (String × Option String)

/-- Resolved, validated settings held by the client. -/
structure Settings where
  API_ID : String
  API_KEY : String
  SENDER : String
deriving DecidableEq

/-- Python falsiness of a settings value: `None` and the empty string. -/
def falsyVal (v : Option String) : Bool :=
  match v with
  | none => true
  | some s => s.isEmpty

/-- `dict.setdefault(k, None)`: append `(k, none)` iff the key is absent. -/
def setdefault (m : Config) (k : String) : Config :=
  if m.any (fun kv => kv.1 = k) then m else m ++ [(k, none)]

/-- `__get_module_settings`: install a `None` default for each required key
(in the fixed order API_ID, API_KEY, SENDER). -/
def getModuleSettings (cfg : Config) : Config :=
  REQUIRED_SETTINGS.foldl setdefault cfg

/-- `__validate_settings`: scan the mapping in iteration order and raise on
the first falsy value, naming that key. -/
def validateSettings : Config → Except Exc Unit
  | [] => .ok ()
  | (k, v) :: rest =>
      if falsyVal v then .error ⟨.SMSModuleException, MISSING_SETTING k⟩
      else validateSettings rest

/-- Value of a key in the mapping ("" when absent or `None`; after a
successful validation every present key has a non-empty value). -/
def lookupVal (m : Config) (k : String) : String :=
  match m.find? (fun kv => kv.1 = k) with
  | some (_, some v) => v
  | _ => ""

/-- `GabiaSMS.__init__`: resolve the module settings and validate them;
either every value is truthy and a fully-populated client results, or the
construction raises and no object is produced. -/
def gabiaInit (cfg : Config) : Except Exc Settings :=
  let m := getModuleSettings cfg
  match validateSettings m with
  | .error e => .error e
  | .ok () => .ok
      { API_ID := lookupVal m "API_ID"
      , API_KEY := lookupVal m "API_KEY"
      , SENDER := lookupVal m "SENDER" }

/-! ## Parameter validation (core.py lines 55–71) -/

/-- `__validate_required_params(message, receiver)` for the single-receiver
variants. -/
def validateRequiredParams (message receiver : PyVal) : Except Exc Unit :=
  if !(message.truthy && receiver.truthy) then
    .error ⟨.SMSModuleException, "Please check required parameters!"⟩
  else if !(message.isStr && receiver.isStr) then
    .error ⟨.SMSModuleException, "Please check parameters type!"⟩
  else if !(phoneSearch receiver.asStr) then
    .error ⟨.SMSModuleException, "Please check phone number!"⟩
  else
    .ok ()

/-- `__validate_required_multi_params(message, receivers)`.  The type check
transcribes the source condition
`not isinstance(receivers, list) or not isinstance(receivers, set)`
literally: it passes only when `receivers` is simultaneously a list and a
set, which no value is. -/
def validateRequiredMultiParams (message receivers : PyVal) : Except Exc Unit :=
  if !(message.truthy && receivers.truthy) then
    .error ⟨.SMSModuleException, "Please check required parameters!"⟩
  else if !(receivers.isList && receivers.isSet) then
    .error ⟨.SMSModuleException, "Please check parameters type!"⟩
  else if !(receivers.elems.all phoneSearch) then
    .error ⟨.SMSModuleException, "Please check phone number!"⟩
  else
    .ok ()

/-! ## MD5 (hashlib.md5(...).hexdigest(), core.py lines 73–77)

`__get_md5_access_token` feeds the UTF-8 encoding of `nonce + API_KEY` to
MD5 and appends the lowercase-hex digest to the nonce.  The digest function
below is the standard MD5 (RFC 1321) over a byte sequence, with 32-bit
words represented as natural numbers reduced modulo 2^32. -/

/-- Mask for reduction modulo 2^32. -/
def MASK32 : Nat := 4294967295

/-- Bitwise complement within 32 bits. -/
def not32 (x : Nat) : Nat := MASK32 ^^^ x

/-- Rotate a 32-bit word left by `n` bits (0 < n < 32 at every use site). -/
def rotl32 (x n : Nat) : Nat :=
  ((x <<< n) ||| (x >>> (32 - n))) &&& MASK32

/-- UTF-8 encoding of one character (Python's `str.encode()`). -/
def utf8Bytes (c : Char) : List Nat :=
  let n := c.toNat
  if n < 128 then [n]
  else if n < 2048 then
    [192 ||| (n >>> 6), 128 ||| (n &&& 63)]
  else if n < 65536 then
    [224 ||| (n >>> 12), 128 ||| ((n >>> 6) &&& 63), 128 ||| (n &&& 63)]
  else
    [240 ||| (n >>> 18), 128 ||| ((n >>> 12) &&& 63),
     128 ||| ((n >>> 6) &&& 63), 128 ||| (n &&& 63)]

/-- UTF-8 bytes of a string. -/
def strBytes (s : String) : List Nat :=
  s.toList.flatMap utf8Bytes

/-- Little-endian serialization of a 32-bit word into four bytes. -/
def le32 (x : Nat) : List Nat :=
  [x &&& 255, (x >>> 8) &&& 255, (x >>> 16) &&& 255, (x >>> 24) &&& 255]

/-- Little-endian serialization of a 64-bit value into eight bytes. -/
def le64 (x : Nat) : List Nat :=
  [x &&& 255, (x >>> 8) &&& 255, (x >>> 16) &&& 255, (x >>> 24) &&& 255,
   (x >>> 32) &&& 255, (x >>> 40) &&& 255, (x >>> 48) &&& 255, (x >>> 56) &&& 255]

/-- MD5 padding: append the 0x80 marker, zero bytes up to 56 mod 64, and
the original bit length as a little-endian 64-bit value. -/
def md5pad (msg : List Nat) : List Nat :=
  let len := msg.length
  let zeros := (120 - (len + 1) % 64) % 64
  msg ++ [128] ++ List.replicate zeros 0 ++ le64 ((len * 8) % 18446744073709551616)

/-- Split a byte sequence into 64-byte chunks, with a structural fuel bound
so the definition reduces by computation (each step strictly shortens a
non-empty list, so any fuel at least the list length is enough). -/
def chunk64Fuel : Nat → List Nat → List (List Nat)
  | 0, _ => []
  | _, [] => []
  | Nat.succ fuel, l => l.take 64 :: chunk64Fuel fuel (l.drop 64)

/-- Split a byte sequence into 64-byte chunks (the input length is always a
multiple of 64 after padding). -/
def chunk64 (l : List Nat) : List (List Nat) :=
  chunk64Fuel l.length l

/-- Decode a 64-byte chunk into sixteen little-endian 32-bit words. -/
def toWords32 : List Nat → List Nat
  | b0 :: b1 :: b2 :: b3 :: rest =>
      (b0 + 256 * (b1 + 256 * (b2 + 256 * b3))) :: toWords32 rest
  | _ => []

/-- The 64 rounds' sine-derived additive constants of MD5. -/
def md5K : List Nat :=
  [0xd76aa478, 0xe8c7b756, 0x242070db, 0xc1bdceee,
   0xf57c0faf, 0x4787c62a, 0xa8304613, 0xfd469501,
   0x698098d8, 0x8b44f7af, 0xffff5bb1, 0x895cd7be,
   0x6b901122, 0xfd987193, 0xa679438e, 0x49b40821,
   0xf61e2562, 0xc040b340, 0x265e5a51, 0xe9b6c7aa,
   0xd62f105d, 0x02441453, 0xd8a1e681, 0xe7d3fbc8,
   0x21e1cde6, 0xc33707d6, 0xf4d50d87, 0x455a14ed,
   0xa9e3e905, 0xfcefa3f8, 0x676f02d9, 0x8d2a4c8a,
   0xfffa3942, 0x8771f681, 0x6d9d6122, 0xfde5380c,
   0xa4beea44, 0x4bdecfa9, 0xf6bb4b60, 0xbebfbc70,
   0x289b7ec6, 0xeaa127fa, 0xd4ef3085, 0x04881d05,
   0xd9d4d039, 0xe6db99e5, 0x1fa27cf8, 0xc4ac5665,
   0xf4292244, 0x432aff97, 0xab9423a7, 0xfc93a039,
   0x655b59c3, 0x8f0ccc92, 0xffeff47d, 0x85845dd1,
   0x6fa87e4f, 0xfe2ce6e0, 0xa3014314, 0x4e0811a1,
   0xf7537e82, 0xbd3af235, 0x2ad7d2bb, 0xeb86d391]

/-- The per-round left-rotation amounts of MD5. -/
def md5S : List Nat :=
  [7, 12, 17, 22, 7, 12, 17, 22, 7, 12, 17, 22, 7, 12, 17, 22,
   5, 9, 14, 20, 5, 9, 14, 20, 5, 9, 14, 20, 5, 9, 14, 20,
   4, 11, 16, 23, 4, 11, 16, 23, 4, 11, 16, 23, 4, 11, 16, 23,
   6, 10, 15, 21, 6, 10, 15, 21, 6, 10, 15, 21, 6, 10, 15, 21]

/-- One MD5 round: mixes the state with word `g` of the message schedule. -/
def md5Round (M : List Nat) (st : Nat × Nat × Nat × Nat) (i : Nat) :
    Nat × Nat × Nat × Nat :=
  let a := st.1
  let b := st.2.1
  let c := st.2.2.1
  let d := st.2.2.2
  let f :=
    if i < 16 then (b &&& c) ||| (not32 b &&& d)
    else if i < 32 then (d &&& b) ||| (not32 d &&& c)
    else if i < 48 then b ^^^ c ^^^ d
    else c ^^^ (b ||| not32 d)
  let g :=
    if i < 16 then i
    else if i < 32 then (5 * i + 1) % 16
    else if i < 48 then (3 * i + 5) % 16
    else (7 * i) % 16
  let sum := (f + a + md5K.getD i 0 + M.getD g 0) &&& MASK32
  (d, (b + rotl32 sum (md5S.getD i 0)) &&& MASK32, b, c)

/-- Process one 64-byte chunk: run the 64 rounds and add the result to the
incoming state, modulo 2^32 per word. -/
def md5Chunk (st : Nat × Nat × Nat × Nat) (chunk : List Nat) :
    Nat × Nat × Nat × Nat :=
  let M := toWords32 chunk
  let r := (List.range 64).foldl (md5Round M) st
  ((st.1 + r.1) &&& MASK32, (st.2.1 + r.2.1) &&& MASK32,
   (st.2.2.1 + r.2.2.1) &&& MASK32, (st.2.2.2 + r.2.2.2) &&& MASK32)

/-- MD5 digest of a byte sequence: sixteen bytes. -/
def md5Bytes (msg : List Nat) : List Nat :=
  let st := (chunk64 (md5pad msg)).foldl md5Chunk
    (0x67452301, 0xefcdab89, 0x98badcfe, 0x10325476)
  le32 st.1 ++ le32 st.2.1 ++ le32 st.2.2.1 ++ le32 st.2.2.2

/-- The sixteen lowercase hexadecimal digits. -/
def hexChars : List Char :=
  "0123456789abcdef".toList

/-- Lowercase hex digit of a value below sixteen. -/
def hexDigit (n : Nat) : Char :=
  hexChars.getD n '0'

/-- Two lowercase hex characters of one byte, high nibble first. -/
def byteHex (b : Nat) : List Char :=
  [hexDigit ((b >>> 4) &&& 15), hexDigit (b &&& 15)]

/-- `hashlib.md5(s.encode()).hexdigest()`: the MD5 digest of the UTF-8
bytes of `s`, as 32 lowercase hex characters. -/
def md5hex (s : String) : String :=
  String.mk ((md5Bytes (strBytes s)).flatMap byteHex)

/-- `__get_md5_access_token` (core.py lines 73–77): a fresh nonce (supplied
by the collaborator `utils.get_nonce`, here an explicit argument)
concatenated with the MD5 hexdigest of nonce + API_KEY. -/
def getMd5AccessToken (nonce api_key : String) : String :=
  nonce ++ md5hex (nonce ++ api_key)

/-! ## Collaborator models -/

/-- Modelled from the spec: `escape_xml_string` (gabia_sms/utils.py, which
is not among the provided sources) escapes the five XML entity characters
`& < > " '` for safe inclusion in the XML payload. -/
def escChar (c : Char) : List Char :=
  if c = '&' then "&amp;".toList
  else if c = '<' then "&lt;".toList
  else if c = '>' then "&gt;".toList
  else if c = '"' then "&quot;".toList
  else if c = '\'' then "&apos;".toList
  else [c]

/-- Modelled from the spec: XML-escaping of a whole string, character by
character. -/
def escape_xml_string (s : String) : String :=
  String.mk (s.toList.flatMap escChar)

/-- Python's `int(...)` applied to `timezone.now().timestamp()`: the clock
reading is a non-negative rational number of seconds since the epoch and
`int` truncates toward zero. -/
def pyInt (q : ℚ) : ℤ :=
  if 0 ≤ q then ⌊q⌋ else ⌈q⌉

/-! ## Request construction (__get_sms_param, core.py lines 93–112) -/

/-- The dict built by `__get_sms_param` and consumed by `__send_sms`. -/
structure SmsParam where
  sender : String
  sms_type : String
  message : String
  receiver : String
  title : String
  scheduled_time : String
  key : ℤ
deriving DecidableEq

/-- Python's `s[-3:]`: the last three characters (the whole string when it
is shorter). -/
def sliceLast3 (s : String) : String :=
  String.mk (s.toList.drop (s.toList.length - 3))

/-- `__get_sms_param(message, receiver, title, scheduled_time, sms_type)`.
For a single variant the receiver is validated and passed through
unchanged; for a multi variant the receiver is coerced with `set(...)`,
validated by the multi validator, joined with commas, and the sms_type is
narrowed to its last three characters.  The dispatch key is
`int(timezone.now().timestamp())`, the truncated clock reading. -/
def getSmsParam (st : Settings) (now : ℚ) (message receiver : PyVal)
    (title scheduled_time sms_type : String) : Except Exc SmsParam :=
  if sms_type ∈ SINGLE_SMS_TYPES then
    match validateRequiredParams message receiver with
    | .error e => .error e
    | .ok () => .ok
        { sender := st.SENDER
        , sms_type := sms_type
        , message := escape_xml_string message.asStr
        , receiver := receiver.asStr
        , title := escape_xml_string title
        , scheduled_time := scheduled_time
        , key := pyInt now }
  else
    match pySet receiver with
    | .error e => .error e
    | .ok receivers =>
      match validateRequiredMultiParams message receivers with
      | .error e => .error e
      | .ok () => .ok
          { sender := st.SENDER
          , sms_type := sliceLast3 sms_type
          , message := escape_xml_string message.asStr
          , receiver := String.intercalate "," receivers.elems
          , title := escape_xml_string title
          , scheduled_time := scheduled_time
          , key := pyInt now }

/-! ## The gateway protocol and observable effects

The modules `gabia_sms.formats` and `gabia_sms.parser` are not among the
provided sources.  Modelled from the spec: a send renders one of two
payload shapes (single-recipient, multi-recipient) interpolating exactly
api_id, access_token, sms_type, key, title, message, sender, receiver and
scheduled_time; a result lookup renders a third shape interpolating
api_id, access_token and key.  The rendered request is embedded as a
structure carrying those fields (plus which template was chosen), and the
result parser `get_result_code` is an opaque collaborator passed as a
function. -/

/-- Which XML template `__send_sms` selected. -/
inductive Template where
  | single
  | multi
deriving DecidableEq

/-- A rendered send request (REQUEST_SMS_XML_FORMAT /
REQUEST_MULTI_SMS_XML_FORMAT with its interpolated fields). -/
structure SendRequest where
  api_id : String
  access_token : String
  sms_type : String
  key : ℤ
  title : String
  message : String
  sender : String
  receiver : String
  scheduled_time : String
  template : Template
deriving DecidableEq

/-- A rendered result-lookup request (REQUEST_SMS_RESULT_FORMAT with its
interpolated fields). -/
structure ResultRequest where
  api_id : String
  access_token : String
  key : String
deriving DecidableEq

/-- A request handed to `proxy.gabiasms`. -/
inductive Request where
  | sms (r : SendRequest)
  | result (r : ResultRequest)
deriving DecidableEq

/-- Observable effects of an operation, in chronological order: the two
overridable hooks (no-ops in the base class), the remote call, and the two
logging statements. -/
inductive Effect where
  | beforeHook (p : SmsParam)
  | gatewayCall (r : Request)
  | logDebug (s : String)
  | logError (s : String)
  | afterHook (p : SmsParam)
deriving DecidableEq

/-- The gateway collaborator: a remote call either returns a raw response
string or raises `xmlrpc_lib.Error` with a fault message. -/
abbrev Gateway := Request → Except String String

/-- The request `__send_sms` renders from a built param dict: api_id and a
fresh access token from the settings, every param field, and the template
chosen by whether the (already narrowed) sms_type is a single type. -/
def buildRequest (st : Settings) (nonce : String) (param : SmsParam) :
    SendRequest :=
  { api_id := st.API_ID
  , access_token := getMd5AccessToken nonce st.API_KEY
  , sms_type := param.sms_type
  , key := param.key
  , title := param.title
  , message := param.message
  , sender := param.sender
  , receiver := param.receiver
  , scheduled_time := param.scheduled_time
  , template := if param.sms_type ∈ SINGLE_SMS_TYPES then .single else .multi }

/-- `__send_sms(param)` (core.py lines 156–195): invoke the before-send
hook, render and issue the request, parse the result code, log a
non-success code at debug level, invoke the post-send hook and return the
dispatch key; an `xmlrpc_lib.Error` is logged and re-raised as
`SMSModuleException` with the generic message.  The returned value is the
Python int `param['key']`. -/
def sendSms (gw : Gateway) (parse : String → String) (st : Settings)
    (nonce : String) (param : SmsParam) : Except Exc PyVal × List Effect :=
  let req := buildRequest st nonce param
  match gw (.sms req) with
  | .ok resp =>
      let code := parse resp
      (.ok (.int param.key),
        [Effect.beforeHook param, Effect.gatewayCall (.sms req)] ++
          (if code ≠ SUCCESS_CODE then [Effect.logDebug code] else []) ++
          [Effect.afterHook param])
  | .error fault =>
      (.error ⟨.SMSModuleException, "Bad request. Please check api docs"⟩,
        [Effect.beforeHook param, Effect.gatewayCall (.sms req),
         Effect.logError fault])

/-- `send(message, receiver, title, sms_type, scheduled_time)`
(core.py lines 114–133): reject an unknown sms_type, then build the param
dict and dispatch it.  Python default arguments are title='SEND',
sms_type='sms', scheduled_time='0'. -/
def send (gw : Gateway) (parse : String → String) (st : Settings) (now : ℚ)
    (nonce : String) (message receiver : PyVal)
    (title sms_type scheduled_time : String) :
    Except Exc PyVal × List Effect :=
  if sms_type ∈ KNOWN_SMS_TYPES then
    match getSmsParam st now message receiver title scheduled_time sms_type with
    | .error e => (.error e, [])
    | .ok param => sendSms gw parse st nonce param
  else
    (.error ⟨.SMSModuleException, "Please check sms type!"⟩, [])

/-- The request `get_send_result` renders: api_id, a freshly generated
access token, and the lookup key. -/
def buildResultRequest (st : Settings) (nonce : String) (key : String) :
    ResultRequest :=
  { api_id := st.API_ID
  , access_token := getMd5AccessToken nonce st.API_KEY
  , key := key }

/-- `get_send_result(key)` (core.py lines 135–154): issue the lookup and
return the parsed result code verbatim; an `xmlrpc_lib.Error` is logged
and re-raised as `SMSModuleException` with the generic message. -/
def getSendResult (gw : Gateway) (parse : String → String) (st : Settings)
    (nonce : String) (key : String) : Except Exc String × List Effect :=
  let req := buildResultRequest st nonce key
  match gw (.result req) with
  | .ok resp =>
      (.ok (parse resp), [Effect.gatewayCall (.result req)])
  | .error fault =>
      (.error ⟨.SMSModuleException, "Bad request. Please check api docs"⟩,
        [Effect.gatewayCall (.result req), Effect.logError fault])

/-! ## Error-kind classification

core.py raises every domain error as the one class `SMSModuleException`;
the three kinds the spec names (configuration, validation, gateway) are
recoverable only from the message text.  The classifier below maps a
message to its kind; the fixed validation and gateway messages are
pairwise distinct and no configuration message (which always carries the
`GABIA_SMS_SETTINGS` prefix) collides with them. -/

/-- The three error kinds of the spec, plus the kind of exceptions that are
not `SMSModuleException` at all. -/
inductive ErrorKind where
  | configuration
  | validation
  | gateway
  | other
deriving DecidableEq

/-- The fixed messages of validation failures. -/
def VALIDATION_MSGS : List String :=
  ["Please check required parameters!", "Please check parameters type!",
   "Please check phone number!", "Please check sms type!"]

/-- The fixed message of a gateway failure. -/
def GATEWAY_MSG : String := "Bad request. Please check api docs"

/-- Classify a raised exception by inspecting its message, the only recourse
a caller has: every kind is raised as the same class. -/
def errorKind (e : Exc) : ErrorKind :=
  if e.cls = .TypeError then .other
  else if e.msg ∈ VALIDATION_MSGS then .validation
  else if e.msg = GATEWAY_MSG then .gateway
  else .configuration

/-- The key of the first falsy-valued entry of a configuration mapping, in
iteration order: the key `__validate_settings` names when it raises. -/
def firstFalsy : Config → Option String
  | [] => none
  | (k, v) :: rest => if falsyVal v then some k else firstFalsy rest

/-- The value stored under a key (`none` both for an absent key and for a
stored Python `None`). -/
def valOf (m : Config) (k : String) : Option String :=
  match m.find? (fun kv => kv.1 = k) with
  | some kv => kv.2
  | none => none

/-! ## Concrete fixtures used by witnesses and counterexamples -/

/-- A valid settings record, as in the spec's end-to-end scenario. -/
def fixedSettings : Settings := ⟨"id1", "key1", "0100000000"⟩

/-- A fake gateway that always answers with the success code. -/
def gatewayEcho : Gateway := fun _ => .ok "0000"

/-- A fake gateway that always answers with the non-success code 0001. -/
def gatewayCode1 : Gateway := fun _ => .ok "0001"

/-- A fake gateway whose every call raises a transport fault. -/
def gatewayDown : Gateway := fun _ => .error "connection refused"

/-- A result parser that returns the raw response unchanged (the fake
gateways above answer with a bare result code). -/
def parseVerbatim : String → String := fun r => r

/-- The param dict built by the spec's single-send scenario
send("hello", "01012345678") at clock reading 1700000000. -/
def sentParam : SmsParam :=
  { sender := "0100000000"
  , sms_type := "sms"
  , message := "hello"
  , receiver := "01012345678"
  , title := "SEND"
  , scheduled_time := "0"
  , key := 1700000000 }

/-- A configuration mapping whose three required keys are all present and
non-empty but which carries an extra falsy-valued entry. -/
def extraConfig : Config :=
  [("API_ID", some "id1"), ("API_KEY", some "key1"),
   ("SENDER", some "0100000000"), ("EXTRA", some "")]

/-! ## Supporting lemmas -/

/-- MD5 sanity check: the RFC 1321 test vector for the empty message. -/
theorem md5hex_empty : md5hex "" = "d41d8cd98f00b204e9800998ecf8427e" := by decide

/-- MD5 sanity check: the RFC 1321 test vector for "abc". -/
theorem md5hex_abc : md5hex "abc" = "900150983cd24fb0d6963f7d28e17f72" := by decide

/-- Settings validation raises exactly at the first falsy-valued entry of
the mapping, naming that entry's key. -/
theorem validateSettings_spec (m : Config) :
    validateSettings m =
      (match firstFalsy m with
       | none => .ok ()
       | some k => .error ⟨.SMSModuleException, MISSING_SETTING k⟩) := by
  induction m with
  | nil => rfl
  | cons kv rest ih =>
      obtain ⟨k, v⟩ := kv
      by_cases hf : falsyVal v = true
      · simp [validateSettings, firstFalsy, hf]
      · simp [validateSettings, firstFalsy, hf, ih]

/-- A mapping with some falsy entry has a first falsy entry. -/
theorem firstFalsy_of_any (m : Config)
    (h : m.any (fun kv => falsyVal kv.2) = true) : ∃ k, firstFalsy m = some k := by
  induction m with
  | nil => simp at h
  | cons kv rest ih =>
      obtain ⟨k, v⟩ := kv
      by_cases hf : falsyVal v = true
      · exact ⟨k, by simp [firstFalsy, hf]⟩
      · simp only [List.any_cons, hf, Bool.false_or] at h
        obtain ⟨k', hk'⟩ := ih h
        exact ⟨k', by simp [firstFalsy, hf, hk']⟩

/-- `setdefault` makes the key present. -/
theorem setdefault_has (m : Config) (k : String) :
    (setdefault m k).any (fun kv => kv.1 = k) = true := by
  unfold setdefault
  by_cases hp : m.any (fun kv => kv.1 = k) = true
  · simp [hp]
  · simp [hp]

/-- `setdefault` keeps every present key present. -/
theorem setdefault_preserves (m : Config) (k k' : String)
    (h : m.any (fun kv => kv.1 = k') = true) :
    (setdefault m k).any (fun kv => kv.1 = k') = true := by
  unfold setdefault
  by_cases hp : m.any (fun kv => kv.1 = k) = true
  · simp [hp, h]
  · simp [hp, List.any_append, h]

/-- After `__get_module_settings`, every required key is present. -/
theorem getModuleSettings_has (cfg : Config) (k : String)
    (hk : k ∈ REQUIRED_SETTINGS) :
    (getModuleSettings cfg).any (fun kv => kv.1 = k) = true := by
  have hunfold : getModuleSettings cfg =
      setdefault (setdefault (setdefault cfg "API_ID") "API_KEY") "SENDER" := rfl
  rw [hunfold]
  simp only [REQUIRED_SETTINGS, List.mem_cons, List.mem_singleton] at hk
  rcases hk with h | h | h | h
  · subst h; exact setdefault_preserves _ _ _ (setdefault_preserves _ _ _ (setdefault_has _ _))
  · subst h; exact setdefault_preserves _ _ _ (setdefault_has _ _)
  · subst h; exact setdefault_has _ _
  · cases h

/-- Every single-variant validation failure is an `SMSModuleException`
carrying one of the fixed validation messages. -/
theorem validateRequiredParams_error (message receiver : PyVal) (e : Exc)
    (h : validateRequiredParams message receiver = .error e) :
    e.cls = .SMSModuleException ∧ e.msg ∈ VALIDATION_MSGS := by
  unfold validateRequiredParams at h
  split at h
  · injection h with h'; subst h'; exact ⟨rfl, by decide⟩
  · split at h
    · injection h with h'; subst h'; exact ⟨rfl, by decide⟩
    · split at h
      · injection h with h'; subst h'; exact ⟨rfl, by decide⟩
      · simp at h

/-- Every multi-variant validation failure is an `SMSModuleException`
carrying one of the fixed validation messages. -/
theorem validateRequiredMultiParams_error (message receivers : PyVal) (e : Exc)
    (h : validateRequiredMultiParams message receivers = .error e) :
    e.cls = .SMSModuleException ∧ e.msg ∈ VALIDATION_MSGS := by
  unfold validateRequiredMultiParams at h
  split at h
  · injection h with h'; subst h'; exact ⟨rfl, by decide⟩
  · split at h
    · injection h with h'; subst h'; exact ⟨rfl, by decide⟩
    · split at h
      · injection h with h'; subst h'; exact ⟨rfl, by decide⟩
      · simp at h

/-- `set(...)` can only fail with a `TypeError`. -/
theorem pySet_error (v : PyVal) (e : Exc) (h : pySet v = .error e) :
    e.cls = .TypeError := by
  cases v with
  | str s => simp [pySet] at h
  | int n => injection h with h'; subst h'; rfl
  | strList xs => simp [pySet] at h
  | strSet xs => simp [pySet] at h
  | pyNone => injection h with h'; subst h'; rfl

/-- Every request-construction failure is either an `SMSModuleException`
with a validation message or the `TypeError` of `set()` on a non-iterable
receiver. -/
theorem getSmsParam_error (st : Settings) (now : ℚ) (message receiver : PyVal)
    (title scheduled_time sms_type : String) (e : Exc)
    (h : getSmsParam st now message receiver title scheduled_time sms_type = .error e) :
    (e.cls = .SMSModuleException ∧ e.msg ∈ VALIDATION_MSGS) ∨ e.cls = .TypeError := by
  unfold getSmsParam at h
  split at h
  · split at h
    · rename_i e' heq
      injection h with h'; subst h'
      exact .inl (validateRequiredParams_error _ _ _ heq)
    · simp at h
  · split at h
    · rename_i e' heq
      injection h with h'; subst h'
      exact .inr (pySet_error _ _ heq)
    · rename_i receivers heq
      split at h
      · rename_i e' heq2
        injection h with h'; subst h'
        exact .inl (validateRequiredMultiParams_error _ _ _ heq2)
      · simp at h

/-- A successfully built param dict carries the truncated clock reading as
its dispatch key. -/
theorem getSmsParam_key (st : Settings) (now : ℚ) (message receiver : PyVal)
    (title scheduled_time sms_type : String) (param : SmsParam)
    (h : getSmsParam st now message receiver title scheduled_time sms_type = .ok param) :
    param.key = pyInt now := by
  unfold getSmsParam at h
  split at h
  · split at h
    · simp at h
    · injection h with h'; subst h'; rfl
  · split at h
    · simp at h
    · split at h
      · simp at h
      · injection h with h'; subst h'; rfl

/-- An `SMSModuleException` with a validation message classifies as a
validation error. -/
theorem errorKind_validation (e : Exc) (h1 : e.cls = .SMSModuleException)
    (h2 : e.msg ∈ VALIDATION_MSGS) : errorKind e = .validation := by
  simp [errorKind, h1, h2]

/-- An `SMSModuleException` with the generic gateway message classifies as
a gateway error. -/
theorem errorKind_gateway (e : Exc) (h1 : e.cls = .SMSModuleException)
    (h2 : e.msg = GATEWAY_MSG) : errorKind e = .gateway := by
  simp [errorKind, h1, h2, GATEWAY_MSG, VALIDATION_MSGS]

/-- Every configuration-failure message starts with a G (it carries the
`GABIA_SMS_SETTINGS` prefix). -/
theorem missingSetting_head (k : String) :
    (MISSING_SETTING k).data.head? = some 'G' := rfl

/-- A configuration-failure message never collides with a string whose
first character is not G. -/
theorem missingSetting_ne (k s : String) (hs : s.data.head? ≠ some 'G') :
    MISSING_SETTING k ≠ s := by
  intro he
  exact hs (he ▸ missingSetting_head k)

/-- An `SMSModuleException` naming a missing setting classifies as a
configuration error, whatever the missing key is. -/
theorem errorKind_configuration (k : String) :
    errorKind ⟨.SMSModuleException, MISSING_SETTING k⟩ = .configuration := by
  have h1 : MISSING_SETTING k ≠ "Please check required parameters!" :=
    missingSetting_ne k _ (by decide)
  have h2 : MISSING_SETTING k ≠ "Please check parameters type!" :=
    missingSetting_ne k _ (by decide)
  have h3 : MISSING_SETTING k ≠ "Please check phone number!" :=
    missingSetting_ne k _ (by decide)
  have h4 : MISSING_SETTING k ≠ "Please check sms type!" :=
    missingSetting_ne k _ (by decide)
  have h5 : MISSING_SETTING k ≠ GATEWAY_MSG :=
    missingSetting_ne k _ (by decide)
  simp [errorKind, VALIDATION_MSGS, h1, h2, h3, h4, h5]

/-- The MD5 digest always serializes to sixteen bytes. -/
theorem md5Bytes_length (msg : List Nat) : (md5Bytes msg).length = 16 := by
  unfold md5Bytes
  simp [le32]

/-- Hex-encoding yields two characters per byte. -/
theorem flatMap_byteHex_length (l : List Nat) :
    (l.flatMap byteHex).length = 2 * l.length := by
  induction l with
  | nil => rfl
  | cons x xs ih => simp [byteHex, ih]; omega

/-- Both characters of a byte's hex encoding are lowercase hex digits. -/
theorem hexDigit_mem (n : Nat) : hexDigit n ∈ hexChars := by
  unfold hexDigit
  rcases Nat.lt_or_ge n 16 with h | h
  · interval_cases n <;> decide
  · rw [List.getD_eq_default]
    · decide
    · simpa [hexChars] using h

/-- Membership form of the previous lemma, at the level of one byte. -/
theorem byteHex_mem (b : Nat) (c : Char) (h : c ∈ byteHex b) : c ∈ hexChars := by
  unfold byteHex at h
  simp only [List.mem_cons, List.not_mem_nil, or_false] at h
  rcases h with h | h <;> (subst h; exact hexDigit_mem _)

/-- The hexdigest is exactly 32 characters long. -/
theorem md5hex_length (s : String) : (md5hex s).length = 32 := by
  have h : (md5hex s).length = ((md5Bytes (strBytes s)).flatMap byteHex).length := rfl
  rw [h, flatMap_byteHex_length, md5Bytes_length]

/-- Every character of the hexdigest is a lowercase hex digit. -/
theorem md5hex_chars (s : String) (c : Char) (h : c ∈ (md5hex s).toList) :
    c ∈ hexChars := by
  have heq : (md5hex s).toList = (md5Bytes (strBytes s)).flatMap byteHex := rfl
  rw [heq] at h
  obtain ⟨b, _, hc⟩ := List.mem_flatMap.mp h
  exact byteHex_mem b c hc

/-- String concatenation is left-cancellative: the part of the token after
the nonce is uniquely determined. -/
theorem string_append_left_cancel (a b c : String) (h : a ++ b = a ++ c) :
    b = c := by
  have hd : a.data ++ b.data = a.data ++ c.data := by
    rw [← String.data_append, ← String.data_append, h]
  exact String.ext (List.append_cancel_left hd)

/-! ## Claims -/

/-- Claim C1: the multi-variant scenario
send("hi", ["01012345678","01012345678"], sms_type="multi_sms") does not
build a request at all: `__get_sms_param` coerces the receivers with
`set(...)` and then `__validate_required_multi_params` demands the result
be simultaneously a `list` and a `set` (the source writes
`not isinstance(receivers, list) or not isinstance(receivers, set)`), so
every multi send raises "Please check parameters type!" before any network
access, contradicting both the claim and the `send` docstring, which
documents list/set receivers for the multi types. -/
theorem claim_c1_multi_send_type_error :
    send gatewayEcho parseVerbatim fixedSettings (1700000000 : ℚ) "n" (.str "hi")
      (.strList ["01012345678", "01012345678"]) "SEND" "multi_sms" "0"
      = (.error ⟨.SMSModuleException, "Please check parameters type!"⟩, []) := by
  decide

/-- The downstream pieces of the multi pipeline do behave as the claim
describes once the inverted type check is discounted: the duplicate
receiver list collapses to the single number under set coercion and
comma-joining, and the variant label narrows to its base form. -/
theorem multi_pipeline_pieces :
    String.intercalate "," (dedupFirst ["01012345678", "01012345678"]) = "01012345678"
    ∧ sliceLast3 "multi_sms" = "sms" := by
  decide

/-- Claim C2: for every receiver string rejected by the phone-number
pattern (the source regex under `re.search`), a single-variant send fails
with a ValidationError — an `SMSModuleException` whose message classifies
as validation — and performs no effect at all, so the gateway collaborator
is never invoked. -/
theorem claim_c2_invalid_receiver_validation
    (gw : Gateway) (parse : String → String) (st : Settings) (now : ℚ)
    (nonce : String) (message : PyVal) (receiver : String)
    (title sms_type scheduled_time : String)
    (hty : sms_type ∈ SINGLE_SMS_TYPES)
    (hphone : phoneSearch receiver = false) :
    ∃ e : Exc,
      send gw parse st now nonce message (.str receiver) title sms_type scheduled_time
        = (.error e, [])
      ∧ e.cls = .SMSModuleException ∧ errorKind e = .validation := by
  have hknown : sms_type ∈ KNOWN_SMS_TYPES := by
    simp only [SINGLE_SMS_TYPES, List.mem_cons, List.not_mem_nil, or_false] at hty
    rcases hty with h | h <;> simp [KNOWN_SMS_TYPES, h]
  have hparam : ∃ e : Exc,
      getSmsParam st now message (.str receiver) title scheduled_time sms_type = .error e
      ∧ e.cls = .SMSModuleException ∧ e.msg ∈ VALIDATION_MSGS := by
    unfold getSmsParam
    rw [if_pos hty]
    unfold validateRequiredParams
    by_cases h1 : (message.truthy && PyVal.truthy (.str receiver)) = true
    · by_cases h2 : (message.isStr && PyVal.isStr (.str receiver)) = true
      · refine ⟨⟨.SMSModuleException, "Please check phone number!"⟩, ?_, rfl, by decide⟩
        simp [h1, h2, PyVal.asStr, hphone]
      · refine ⟨⟨.SMSModuleException, "Please check parameters type!"⟩, ?_, rfl, by decide⟩
        simp [h1, h2]
    · refine ⟨⟨.SMSModuleException, "Please check required parameters!"⟩, ?_, rfl, by decide⟩
      simp [h1]
  obtain ⟨e, he, hc, hm⟩ := hparam
  refine ⟨e, ?_, hc, errorKind_validation e hc hm⟩
  unfold send
  rw [if_pos hknown, he]

/-- Concrete instance of C2: sending to "012345" (no ten-digit pattern
anywhere in it) with a live fake gateway fails as a validation error with
an empty effect trace. -/
theorem claim_c2_witness :
    ∃ e : Exc,
      send gatewayEcho parseVerbatim fixedSettings (1700000000 : ℚ) "n" (.str "hi")
        (.str "012345") "SEND" "sms" "0" = (.error e, [])
      ∧ e.cls = .SMSModuleException ∧ errorKind e = .validation :=
  claim_c2_invalid_receiver_validation gatewayEcho parseVerbatim fixedSettings
    (1700000000 : ℚ) "n" (.str "hi") "012345" "SEND" "sms" "0" (by decide) (by decide)

/-- Claim C10: an sms_type outside the known four makes `send` raise
"Please check sms type!" immediately, for every combination of the other
arguments (even ones that could not pass validation or set-coercion), with
an empty effect trace: no validation, token generation, hook or network
access happens first. -/
theorem claim_c10_unknown_sms_type
    (gw : Gateway) (parse : String → String) (st : Settings) (now : ℚ)
    (nonce : String) (message receiver : PyVal)
    (title sms_type scheduled_time : String)
    (h : sms_type ∉ KNOWN_SMS_TYPES) :
    send gw parse st now nonce message receiver title sms_type scheduled_time
      = (.error ⟨.SMSModuleException, "Please check sms type!"⟩, []) := by
  unfold send
  rw [if_neg h]

/-- Concrete instance of C10: sms_type "mms" with a `None` receiver (which
would raise a TypeError if `set()` were ever reached) still fails with the
sms-type message and no effects. -/
theorem claim_c10_witness :
    send gatewayEcho parseVerbatim fixedSettings (1700000000 : ℚ) "n" (.int 7) .pyNone
      "SEND" "mms" "0" = (.error ⟨.SMSModuleException, "Please check sms type!"⟩, []) :=
  claim_c10_unknown_sms_type gatewayEcho parseVerbatim fixedSettings (1700000000 : ℚ)
    "n" (.int 7) .pyNone "SEND" "mms" "0" (by decide)

/-- Claim C4: when the remote call succeeds at the transport level but the
parsed result code is not "0000", `send` still returns the dispatch key;
the non-success code appears only as a debug log between the gateway call
and the after-send hook, and no error is raised. -/
theorem claim_c4_nonsuccess_code_logged_only
    (gw : Gateway) (parse : String → String) (st : Settings) (now : ℚ)
    (nonce : String) (message receiver : PyVal)
    (title sms_type scheduled_time : String) (param : SmsParam) (resp : String)
    (hknown : sms_type ∈ KNOWN_SMS_TYPES)
    (hbuild : getSmsParam st now message receiver title scheduled_time sms_type = .ok param)
    (hgw : gw (.sms (buildRequest st nonce param)) = .ok resp)
    (hcode : parse resp ≠ SUCCESS_CODE) :
    send gw parse st now nonce message receiver title sms_type scheduled_time
      = (.ok (.int param.key),
         [.beforeHook param, .gatewayCall (.sms (buildRequest st nonce param)),
          .logDebug (parse resp), .afterHook param]) := by
  unfold send
  rw [if_pos hknown, hbuild]
  simp only [sendSms]
  rw [hgw]
  simp [hcode]

/-- Concrete instance of C4: a fake gateway answering "0001" still yields
the dispatch key, with the "0001" logged at debug level only. -/
theorem claim_c4_witness :
    send gatewayCode1 parseVerbatim fixedSettings (1700000000 : ℚ) "n" (.str "hello")
      (.str "01012345678") "SEND" "sms" "0"
      = (.ok (.int sentParam.key),
         [.beforeHook sentParam,
          .gatewayCall (.sms (buildRequest fixedSettings "n" sentParam)),
          .logDebug "0001", .afterHook sentParam]) :=
  claim_c4_nonsuccess_code_logged_only gatewayCode1 parseVerbatim fixedSettings
    (1700000000 : ℚ) "n" (.str "hello") (.str "01012345678") "SEND" "sms" "0"
    sentParam "0001" (by decide) (by decide) rfl (by decide)

/-- Claim C5: a transport fault during the remote call makes `send` raise
`SMSModuleException` with the generic "Bad request. Please check api docs"
message; the fault string itself only reaches the error log; the
before-send hook has already run by then and the after-send hook never runs. -/
theorem claim_c5_transport_fault
    (gw : Gateway) (parse : String → String) (st : Settings) (now : ℚ)
    (nonce : String) (message receiver : PyVal)
    (title sms_type scheduled_time : String) (param : SmsParam) (fault : String)
    (hknown : sms_type ∈ KNOWN_SMS_TYPES)
    (hbuild : getSmsParam st now message receiver title scheduled_time sms_type = .ok param)
    (hgw : gw (.sms (buildRequest st nonce param)) = .error fault) :
    send gw parse st now nonce message receiver title sms_type scheduled_time
      = (.error ⟨.SMSModuleException, "Bad request. Please check api docs"⟩,
         [.beforeHook param, .gatewayCall (.sms (buildRequest st nonce param)),
          .logError fault])
    ∧ Effect.beforeHook param
        ∈ (send gw parse st now nonce message receiver title sms_type scheduled_time).2
    ∧ ∀ q : SmsParam, Effect.afterHook q
        ∉ (send gw parse st now nonce message receiver title sms_type scheduled_time).2 := by
  have hmain : send gw parse st now nonce message receiver title sms_type scheduled_time
      = (.error ⟨.SMSModuleException, "Bad request. Please check api docs"⟩,
         [.beforeHook param, .gatewayCall (.sms (buildRequest st nonce param)),
          .logError fault]) := by
    unfold send
    rw [if_pos hknown, hbuild]
    simp only [sendSms]
    rw [hgw]
  refine ⟨hmain, ?_, ?_⟩
  · rw [hmain]; simp
  · intro q; rw [hmain]; simp

/-- Concrete instance of C5: a gateway that raises "connection refused"
makes the scenario send raise the generic gateway error with the before
hook on the trace and no after hook. -/
theorem claim_c5_witness :
    send gatewayDown parseVerbatim fixedSettings (1700000000 : ℚ) "n" (.str "hello")
      (.str "01012345678") "SEND" "sms" "0"
      = (.error ⟨.SMSModuleException, "Bad request. Please check api docs"⟩,
         [.beforeHook sentParam,
          .gatewayCall (.sms (buildRequest fixedSettings "n" sentParam)),
          .logError "connection refused"])
    ∧ Effect.beforeHook sentParam
        ∈ (send gatewayDown parseVerbatim fixedSettings (1700000000 : ℚ) "n" (.str "hello")
            (.str "01012345678") "SEND" "sms" "0").2
    ∧ ∀ q : SmsParam, Effect.afterHook q
        ∉ (send gatewayDown parseVerbatim fixedSettings (1700000000 : ℚ) "n" (.str "hello")
            (.str "01012345678") "SEND" "sms" "0").2 :=
  claim_c5_transport_fault gatewayDown parseVerbatim fixedSettings (1700000000 : ℚ)
    "n" (.str "hello") (.str "01012345678") "SEND" "sms" "0" sentParam
    "connection refused" (by decide) (by decide) rfl

/-- Claim C7 counterexample: `send` returns `param['key']`, a Python int,
not an integer-as-string: in the spec's single-send scenario the returned
value is the integer 1700000000 and `isinstance(result, str)` is false. -/
theorem claim_c7_counterexample :
    (send gatewayEcho parseVerbatim fixedSettings (1700000000 : ℚ) "n" (.str "hello")
      (.str "01012345678") "SEND" "sms" "0").1 = .ok (.int 1700000000)
    ∧ PyVal.isStr (.int 1700000000) = false := by
  exact ⟨by decide, rfl⟩

/-- Claim C7 (amended): every successful send returns the dispatch key as
an integer — not a string — whose value is the truncation to integer
seconds of the clock reading taken at request-build time. -/
theorem claim_c7_dispatch_key_integer
    (gw : Gateway) (parse : String → String) (st : Settings) (now : ℚ)
    (nonce : String) (message receiver : PyVal)
    (title sms_type scheduled_time : String) (param : SmsParam) (resp : String)
    (hknown : sms_type ∈ KNOWN_SMS_TYPES)
    (hbuild : getSmsParam st now message receiver title scheduled_time sms_type = .ok param)
    (hgw : gw (.sms (buildRequest st nonce param)) = .ok resp) :
    (send gw parse st now nonce message receiver title sms_type scheduled_time).1
      = .ok (.int (pyInt now)) := by
  have hk := getSmsParam_key st now message receiver title scheduled_time sms_type param hbuild
  unfold send
  rw [if_pos hknown, hbuild]
  simp only [sendSms]
  rw [hgw]
  simp [hk]

/-- Concrete instance of the amended C7: at clock reading 1700000000.75 the
returned dispatch key is the integer 1700000000. -/
theorem claim_c7_witness :
    (send gatewayEcho parseVerbatim fixedSettings (Rat.mk' 6800000003 4) "n" (.str "hello")
      (.str "01012345678") "SEND" "sms" "0").1
      = .ok (.int (pyInt (Rat.mk' 6800000003 4))) :=
  claim_c7_dispatch_key_integer gatewayEcho parseVerbatim fixedSettings
    (Rat.mk' 6800000003 4) "n" (.str "hello") (.str "01012345678") "SEND" "sms" "0"
    { sentParam with key := pyInt (Rat.mk' 6800000003 4) } "0000"
    (by decide) (by decide) rfl

/-- Claim C8: `get_send_result` renders the lookup request from exactly the
api_id, a freshly generated access token and the key; a transport success
returns the parsed result code verbatim, whatever its value, and only a
transport fault raises the generic gateway `SMSModuleException`. -/
theorem claim_c8_result_lookup
    (gw : Gateway) (parse : String → String) (st : Settings)
    (nonce : String) (key : String) :
    (buildResultRequest st nonce key).api_id = st.API_ID
    ∧ (buildResultRequest st nonce key).access_token = getMd5AccessToken nonce st.API_KEY
    ∧ (buildResultRequest st nonce key).key = key
    ∧ (∀ resp : String, gw (.result (buildResultRequest st nonce key)) = .ok resp →
        getSendResult gw parse st nonce key
          = (.ok (parse resp), [.gatewayCall (.result (buildResultRequest st nonce key))]))
    ∧ (∀ fault : String, gw (.result (buildResultRequest st nonce key)) = .error fault →
        getSendResult gw parse st nonce key
          = (.error ⟨.SMSModuleException, "Bad request. Please check api docs"⟩,
             [.gatewayCall (.result (buildResultRequest st nonce key)),
              .logError fault])) := by
  refine ⟨rfl, rfl, rfl, ?_, ?_⟩
  · intro resp hresp
    simp only [getSendResult]
    rw [hresp]
  · intro fault hfault
    simp only [getSendResult]
    rw [hfault]

/-- Concrete instance of C8: the spec's scenario — a fake gateway answering
the failure code "0001" to the lookup of key "123" — returns "0001" without
raising. -/
theorem claim_c8_witness :
    getSendResult gatewayCode1 parseVerbatim fixedSettings "n" "123"
      = (.ok "0001",
         [.gatewayCall (.result (buildResultRequest fixedSettings "n" "123"))]) :=
  (claim_c8_result_lookup gatewayCode1 parseVerbatim fixedSettings "n" "123").2.2.2.1
    "0001" rfl

/-- Claim C9: every generated access token is the nonce followed by the MD5
hexdigest of nonce + secret key: the digest portion is 32 characters, all
lowercase hexadecimal, and is uniquely determined by the nonce and the
key (the only randomness is the nonce itself). -/
theorem claim_c9_token_structure (nonce api_key : String) :
    getMd5AccessToken nonce api_key = nonce ++ md5hex (nonce ++ api_key)
    ∧ (md5hex (nonce ++ api_key)).length = 32
    ∧ (∀ c ∈ (md5hex (nonce ++ api_key)).toList, c ∈ hexChars)
    ∧ (∀ d : String, getMd5AccessToken nonce api_key = nonce ++ d →
        d = md5hex (nonce ++ api_key)) := by
  refine ⟨rfl, md5hex_length _, fun c hc => md5hex_chars _ c hc, fun d hd => ?_⟩
  have h : nonce ++ md5hex (nonce ++ api_key) = nonce ++ d := hd
  exact (string_append_left_cancel nonce (md5hex (nonce ++ api_key)) d h).symm

/-- Concrete instance of C9: structure and digest length of the token for
nonce "n" and secret key "key1". -/
theorem claim_c9_witness :
    getMd5AccessToken "n" "key1" = "n" ++ md5hex ("n" ++ "key1")
    ∧ (md5hex ("n" ++ "key1")).length = 32 :=
  ⟨(claim_c9_token_structure "n" "key1").1, (claim_c9_token_structure "n" "key1").2.1⟩

/-- A mapping whose every value is truthy has no first falsy entry. -/
theorem firstFalsy_none_of_all (m : Config)
    (h : m.all (fun kv => !falsyVal kv.2) = true) : firstFalsy m = none := by
  induction m with
  | nil => rfl
  | cons kv rest ih =>
      obtain ⟨k, v⟩ := kv
      simp only [List.all_cons, Bool.and_eq_true, Bool.not_eq_true'] at h
      simp [firstFalsy, h.1, ih h.2]

/-- Every construction failure names the first falsy-valued key of the
resolved mapping. -/
theorem gabiaInit_error (cfg : Config) (e : Exc) (h : gabiaInit cfg = .error e) :
    ∃ k : String, firstFalsy (getModuleSettings cfg) = some k
      ∧ e = ⟨.SMSModuleException, MISSING_SETTING k⟩ := by
  simp only [gabiaInit] at h
  rw [validateSettings_spec] at h
  cases hf : firstFalsy (getModuleSettings cfg) with
  | none => rw [hf] at h; simp at h
  | some k =>
      rw [hf] at h
      refine ⟨k, rfl, ?_⟩
      injection h with h'
      exact h'.symm

/-- When every resolved entry is truthy, construction succeeds with the
fully-populated settings record. -/
theorem gabiaInit_ok_of_all (cfg : Config)
    (h : (getModuleSettings cfg).all (fun kv => !falsyVal kv.2) = true) :
    gabiaInit cfg = .ok
      ⟨lookupVal (getModuleSettings cfg) "API_ID",
       lookupVal (getModuleSettings cfg) "API_KEY",
       lookupVal (getModuleSettings cfg) "SENDER"⟩ := by
  have hf : firstFalsy (getModuleSettings cfg) = none := firstFalsy_none_of_all _ h
  simp only [gabiaInit]
  rw [validateSettings_spec, hf]

/-- Every error escaping `send` is the module exception with either a
validation message (raised before any effect) or the generic gateway
message (raised after the before-send hook and the remote call, with the
fault logged), except for the `TypeError` of `set()` on a non-iterable
receiver (also raised before any effect). -/
theorem send_error_classified
    (gw : Gateway) (parse : String → String) (st : Settings) (now : ℚ)
    (nonce : String) (message receiver : PyVal)
    (title sms_type scheduled_time : String) (e : Exc) (tr : List Effect)
    (h : send gw parse st now nonce message receiver title sms_type scheduled_time
      = (.error e, tr)) :
    (e.cls = .SMSModuleException ∧
      ((errorKind e = .validation ∧ tr = [])
       ∨ (errorKind e = .gateway ∧
           ∃ (p : SmsParam) (r : Request) (f : String),
             tr = [.beforeHook p, .gatewayCall r, .logError f])))
    ∨ e.cls = .TypeError := by
  unfold send at h
  by_cases hknown : sms_type ∈ KNOWN_SMS_TYPES
  · rw [if_pos hknown] at h
    cases hbuild : getSmsParam st now message receiver title scheduled_time sms_type with
    | error e' =>
        rw [hbuild] at h
        injection h with h1 h2
        injection h1 with h1'
        subst h1'
        rcases getSmsParam_error st now message receiver title scheduled_time
          sms_type e' hbuild with ⟨hc, hm⟩ | hty
        · exact .inl ⟨hc, .inl ⟨errorKind_validation e' hc hm, h2.symm⟩⟩
        · exact .inr hty
    | ok param =>
        rw [hbuild] at h
        simp only [sendSms] at h
        cases hgw : gw (.sms (buildRequest st nonce param)) with
        | ok resp => rw [hgw] at h; simp at h
        | error fault =>
            rw [hgw] at h
            injection h with h1 h2
            injection h1 with h1'
            subst h1'
            exact .inl ⟨rfl, .inr ⟨errorKind_gateway _ rfl rfl,
              param, .sms (buildRequest st nonce param), fault, h2.symm⟩⟩
  · rw [if_neg hknown] at h
    injection h with h1 h2
    injection h1 with h1'
    subst h1'
    exact .inl ⟨rfl, .inl ⟨by decide, h2.symm⟩⟩

/-- Every error escaping `get_send_result` is the generic gateway module
exception. -/
theorem getSendResult_error
    (gw : Gateway) (parse : String → String) (st : Settings)
    (nonce : String) (key : String) (e : Exc) (tr : List Effect)
    (h : getSendResult gw parse st nonce key = (.error e, tr)) :
    e.cls = .SMSModuleException ∧ errorKind e = .gateway := by
  simp only [getSendResult] at h
  cases hgw : gw (.result (buildResultRequest st nonce key)) with
  | ok resp => rw [hgw] at h; simp at h
  | error fault =>
      rw [hgw] at h
      injection h with h1 h2
      injection h1 with h1'
      subst h1'
      exact ⟨rfl, by decide⟩

/-- Claim C3 counterexample: the three error kinds are NOT distinguishable
types or variants — a configuration failure, a validation failure and a
gateway failure are concretely raised with the identical exception class
`SMSModuleException`, so a caller branching on the exception type cannot
tell which kind occurred. -/
theorem claim_c3_counterexample :
    gabiaInit [] = .error ⟨.SMSModuleException, MISSING_SETTING "API_ID"⟩
    ∧ (send gatewayEcho parseVerbatim fixedSettings (1700000000 : ℚ) "n" (.str "hi")
        (.str "abc") "SEND" "sms" "0").1
        = .error ⟨.SMSModuleException, "Please check phone number!"⟩
    ∧ (send gatewayDown parseVerbatim fixedSettings (1700000000 : ℚ) "n" (.str "hi")
        (.str "01012345678") "SEND" "sms" "0").1
        = .error ⟨.SMSModuleException, GATEWAY_MSG⟩
    ∧ Exc.cls ⟨.SMSModuleException, MISSING_SETTING "API_ID"⟩
        = Exc.cls ⟨.SMSModuleException, "Please check phone number!"⟩
    ∧ Exc.cls ⟨.SMSModuleException, "Please check phone number!"⟩
        = Exc.cls ⟨.SMSModuleException, GATEWAY_MSG⟩ := by
  exact ⟨by decide, by decide, by decide, rfl, rfl⟩

/-- Claim C3 (amended): every kind is raised as the single class
`SMSModuleException`, and the kinds are nevertheless distinguishable by
the message carried: construction failures classify as configuration,
errors `send` raises before any effect (other than the receiver-coercion
`TypeError`) classify as validation, and errors raised after the gateway
call — in `send` or in `get_send_result` — classify as gateway. -/
theorem claim_c3_kinds_by_message
    (cfg : Config) (gw : Gateway) (parse : String → String) (st : Settings)
    (now : ℚ) (nonce : String) (message receiver : PyVal)
    (title sms_type scheduled_time key : String) :
    (∀ e : Exc, gabiaInit cfg = .error e →
        e.cls = .SMSModuleException ∧ errorKind e = .configuration)
    ∧ (∀ (e : Exc) (tr : List Effect),
        send gw parse st now nonce message receiver title sms_type scheduled_time
          = (.error e, tr) →
          (e.cls = .SMSModuleException ∧
            ((errorKind e = .validation ∧ tr = [])
             ∨ (errorKind e = .gateway ∧
                 ∃ (p : SmsParam) (r : Request) (f : String),
                   tr = [.beforeHook p, .gatewayCall r, .logError f])))
          ∨ e.cls = .TypeError)
    ∧ (∀ (e : Exc) (tr : List Effect),
        getSendResult gw parse st nonce key = (.error e, tr) →
          e.cls = .SMSModuleException ∧ errorKind e = .gateway) := by
  refine ⟨?_, ?_, ?_⟩
  · intro e he
    obtain ⟨k, _, hk⟩ := gabiaInit_error cfg e he
    subst hk
    exact ⟨rfl, errorKind_configuration k⟩
  · intro e tr h
    exact send_error_classified gw parse st now nonce message receiver
      title sms_type scheduled_time e tr h
  · intro e tr h
    exact getSendResult_error gw parse st nonce key e tr h

/-- Concrete instance of the amended C3: a missing-setting failure
classifies as configuration and a transport-fault lookup failure
classifies as gateway, both with the same class. -/
theorem claim_c3_witness :
    (Exc.cls ⟨.SMSModuleException, MISSING_SETTING "API_ID"⟩ = .SMSModuleException
     ∧ errorKind ⟨.SMSModuleException, MISSING_SETTING "API_ID"⟩ = .configuration)
    ∧ (Exc.cls ⟨.SMSModuleException, GATEWAY_MSG⟩ = .SMSModuleException
     ∧ errorKind ⟨.SMSModuleException, GATEWAY_MSG⟩ = .gateway) := by
  constructor
  · exact (claim_c3_kinds_by_message [] gatewayEcho parseVerbatim fixedSettings
      (1700000000 : ℚ) "n" (.str "hi") (.str "a") "SEND" "sms" "0" "k").1
      ⟨.SMSModuleException, MISSING_SETTING "API_ID"⟩ (by decide)
  · exact (claim_c3_kinds_by_message [] gatewayDown parseVerbatim fixedSettings
      (1700000000 : ℚ) "n" (.str "hi") (.str "a") "SEND" "sms" "0" "123").2.2
      ⟨.SMSModuleException, GATEWAY_MSG⟩
      [.gatewayCall (.result (buildResultRequest fixedSettings "n" "123")),
       .logError "connection refused"] (by decide)

/-- Claim C6 counterexample: a configuration whose three required keys are
all present and non-empty still fails construction, because
`__validate_settings` iterates over every entry of the mapping and the
extra key EXTRA carries an empty value — the raised error even names that
non-required key. -/
theorem claim_c6_counterexample :
    valOf extraConfig "API_ID" = some "id1"
    ∧ valOf extraConfig "API_KEY" = some "key1"
    ∧ valOf extraConfig "SENDER" = some "0100000000"
    ∧ gabiaInit extraConfig = .error ⟨.SMSModuleException, MISSING_SETTING "EXTRA"⟩ := by
  exact ⟨by decide, by decide, by decide, by decide⟩

/-- Claim C6 (amended): when every entry of the resolved configuration is
truthy — in particular all three required keys present and non-empty —
construction succeeds with the fully-populated settings; when any entry is
falsy, construction fails with the module exception naming the first
falsy-valued key of the mapping (the missing required key itself whenever
the other entries are truthy), and no settings record is produced; and a
required key that is missing or falsy always drives the mapping into that
failing case. -/
theorem claim_c6_configuration (cfg : Config) :
    ((getModuleSettings cfg).all (fun kv => !falsyVal kv.2) = true →
        gabiaInit cfg = .ok
          ⟨lookupVal (getModuleSettings cfg) "API_ID",
           lookupVal (getModuleSettings cfg) "API_KEY",
           lookupVal (getModuleSettings cfg) "SENDER"⟩)
    ∧ (∀ k : String, firstFalsy (getModuleSettings cfg) = some k →
        gabiaInit cfg = .error ⟨.SMSModuleException, MISSING_SETTING k⟩)
    ∧ (REQUIRED_SETTINGS.any
          (fun k => falsyVal (valOf (getModuleSettings cfg) k)) = true →
        ∃ k : String, firstFalsy (getModuleSettings cfg) = some k) := by
  refine ⟨gabiaInit_ok_of_all cfg, ?_, ?_⟩
  · intro k hk
    simp only [gabiaInit]
    rw [validateSettings_spec, hk]
  · intro h
    obtain ⟨k, hkreq, hkfalsy⟩ := List.any_eq_true.mp h
    have hpresent : (getModuleSettings cfg).any (fun kv => kv.1 = k) = true :=
      getModuleSettings_has cfg k hkreq
    obtain ⟨kv, hkvmem, hkvp⟩ := List.any_eq_true.mp hpresent
    have hsome : ∃ kv', (getModuleSettings cfg).find? (fun kv => kv.1 = k) = some kv' := by
      have h2 : ((getModuleSettings cfg).find? (fun kv => kv.1 = k)).isSome = true :=
        List.find?_isSome.mpr ⟨kv, hkvmem, hkvp⟩
      exact Option.isSome_iff_exists.mp h2
    obtain ⟨kv', hfind⟩ := hsome
    have hval : valOf (getModuleSettings cfg) k = kv'.2 := by
      unfold valOf
      rw [hfind]
    have hkv'falsy : falsyVal kv'.2 = true := by
      rw [← hval]
      exact hkfalsy
    have hkv'mem : kv' ∈ getModuleSettings cfg := List.mem_of_find?_eq_some hfind
    exact firstFalsy_of_any _ (List.any_eq_true.mpr ⟨kv', hkv'mem, hkv'falsy⟩)

/-- Concrete instances of the amended C6: a configuration missing API_ID
fails naming API_ID, and the spec's valid three-key configuration
constructs the populated settings record. -/
theorem claim_c6_witness :
    gabiaInit [("API_KEY", some "key1"), ("SENDER", some "0100000000")]
      = .error ⟨.SMSModuleException, MISSING_SETTING "API_ID"⟩
    ∧ gabiaInit [("API_ID", some "id1"), ("API_KEY", some "key1"),
        ("SENDER", some "0100000000")]
      = .ok ⟨"id1", "key1", "0100000000"⟩ := by
  constructor
  · exact (claim_c6_configuration
      [("API_KEY", some "key1"), ("SENDER", some "0100000000")]).2.1
      "API_ID" (by decide)
  · exact ((claim_c6_configuration
      [("API_ID", some "id1"), ("API_KEY", some "key1"),
       ("SENDER", some "0100000000")]).1 (by decide)).trans (by decide)

end GabiaSms
